import Mathlib

/-!
Verification of the HLLLogUtilities replication runtime.

A shallow embedding of `src/lib/storage/runtime.py` and
`src/lib/storage/postgres.py`: the partition cache, the retry executor,
the concurrency gate, and the submission functions of the replication
runtime, together with theorems settling the specification's claims.

Conventions of the embedding:
* `datetime` values are a record of calendar fields plus an optional
  timezone offset in minutes (`none` models a naive datetime).
* Durations are measured in deciseconds (tenths of a second), so the
  retry constants `0.5 s` and `30 s` of the source become `5` and `300`.
* Asynchronous execution is modelled by explicit state passing: a unit
  of work consumes an environment (observation stream, attempt
  outcomes) and produces a trace of store operations and gate events.
* Python `set` objects are modelled as duplicate-free lists; iteration
  order over a set comprehension is modelled as first-occurrence order
  (the properties proved about traces are insensitive to that order
  where the source leaves it unspecified).
-/

set_option autoImplicit false

namespace HLL

/-! ## Calendar data model -/

/-- A Python `datetime`: calendar fields plus an optional UTC offset in
minutes (`none` models a naive datetime, i.e. `tzinfo is None`). -/
structure DateTime where
  year : Nat
  month : Nat
  day : Nat
  hour : Nat
  minute : Nat
  second : Nat
  microsecond : Nat
  tzOffsetMinutes : Option Int
deriving DecidableEq, Repr

/-- Modelled from the spec: a log line of `lib.logs.LogLine` (the module is
not part of the sources at hand) carries an event timestamp and a wide set
of event-specific fields; the runtime only inspects `event_time`, so the
remaining fields are collapsed into an opaque payload. -/
structure LogLine where
  event_time : DateTime
  payload : Nat
deriving DecidableEq, Repr

/-- Zero-padded two-digit rendering, as `strftime` `%m` produces. -/
def pad2 (n : Nat) : String :=
  if n < 10 then "0" ++ toString n else toString n

/-- Zero-padded four-digit rendering, as `strftime` `%Y` produces for the
years in range. -/
def pad4 (n : Nat) : String :=
  if n < 10 then "000" ++ toString n
  else if n < 100 then "00" ++ toString n
  else if n < 1000 then "0" ++ toString n
  else toString n

/-- `runtime._normalize_month`: attach UTC to a naive datetime, then zero
the sub-month fields.  The timezone of an aware datetime is kept as is —
`datetime.replace` never converts between zones. -/
def normalize_month (dt : DateTime) : DateTime :=
  let dt := if dt.tzOffsetMinutes = none then { dt with tzOffsetMinutes := some 0 } else dt
  { dt with day := 1, hour := 0, minute := 0, second := 0, microsecond := 0 }

/-- The partition-cache key `month.strftime("%Y-%m-01")` of
`runtime._ensure_partitions_for_logs`. -/
def monthKey (dt : DateTime) : String :=
  pad4 dt.year ++ "-" ++ pad2 dt.month ++ "-01"

/-! ## Spec-side month normalization (for the refinement claim about
`_normalize_month`) -/

/-- Gregorian leap-year test. -/
def isLeapYear (y : Nat) : Bool :=
  (y % 4 = 0 && y % 100 ≠ 0) || y % 400 = 0

/-- Number of days of a month. -/
def daysInMonth (y m : Nat) : Nat :=
  if m = 2 then (if isLeapYear y then 29 else 28)
  else if m = 4 ∨ m = 6 ∨ m = 9 ∨ m = 11 then 30
  else 31

/-- Calendar date of the previous day. -/
def prevDay (y m d : Nat) : Nat × Nat × Nat :=
  if 1 < d then (y, m, d - 1)
  else if 1 < m then (y, m - 1, daysInMonth y (m - 1))
  else (y - 1, 12, 31)

/-- Calendar date of the next day. -/
def nextDay (y m d : Nat) : Nat × Nat × Nat :=
  if d < daysInMonth y m then (y, m, d + 1)
  else if m < 12 then (y, m + 1, 1)
  else (y + 1, 1, 1)

/-- The UTC instant corresponding to a datetime: subtract the offset,
borrowing or carrying at most one day (Python timezone offsets are
strictly less than 24 hours in magnitude).  A naive datetime is read as
already being in UTC. -/
def toUTC (dt : DateTime) : DateTime :=
  match dt.tzOffsetMinutes with
  | none => { dt with tzOffsetMinutes := some 0 }
  | some off =>
    let t : Int := (dt.hour * 60 + dt.minute : Nat) - off
    if t < 0 then
      let ymd := prevDay dt.year dt.month dt.day
      { year := ymd.1, month := ymd.2.1, day := ymd.2.2,
        hour := (t + 1440).toNat / 60, minute := (t + 1440).toNat % 60,
        second := dt.second, microsecond := dt.microsecond, tzOffsetMinutes := some 0 }
    else if 1440 ≤ t then
      let ymd := nextDay dt.year dt.month dt.day
      { year := ymd.1, month := ymd.2.1, day := ymd.2.2,
        hour := (t - 1440).toNat / 60, minute := (t - 1440).toNat % 60,
        second := dt.second, microsecond := dt.microsecond, tzOffsetMinutes := some 0 }
    else
      { year := dt.year, month := dt.month, day := dt.day,
        hour := t.toNat / 60, minute := t.toNat % 60,
        second := dt.second, microsecond := dt.microsecond, tzOffsetMinutes := some 0 }

/-- The specification's reading of month normalization: the start of the
calendar month, in UTC, of the event time's corresponding UTC instant. -/
def normalize_month_utc_spec (dt : DateTime) : DateTime :=
  let u := toUTC dt
  { u with day := 1, hour := 0, minute := 0, second := 0, microsecond := 0 }

/-! ## Secondary store client (`postgres.py`) -/

/-- `postgres._get_month_end`: the first day of the following month, same
timezone, time zeroed. -/
def get_month_end (month_start : DateTime) : DateTime :=
  if month_start.month = 12 then
    { year := month_start.year + 1, month := 1, day := 1, hour := 0, minute := 0,
      second := 0, microsecond := 0, tzOffsetMinutes := month_start.tzOffsetMinutes }
  else
    { year := month_start.year, month := month_start.month + 1, day := 1, hour := 0,
      minute := 0, second := 0, microsecond := 0,
      tzOffsetMinutes := month_start.tzOffsetMinutes }

/-- The components of the partition-create DDL that
`postgres.ensure_partitions` renders and executes: the derived partition
name and the two range bounds (the rendered SQL is
`CREATE TABLE IF NOT EXISTS <name> PARTITION OF session_logs FOR VALUES
FROM (<from_bound>) TO (<to_bound>)`). -/
structure PartitionDDL where
  partition_name : String
  from_bound : String
  to_bound : String
deriving DecidableEq, Repr

/-- `postgres.ensure_partitions` as a pure description of the DDL it
issues for a month start. -/
def ensure_partitions_ddl (month_start : DateTime) : PartitionDDL :=
  { partition_name := "session_logs_" ++ pad4 month_start.year ++ "_" ++ pad2 month_start.month,
    from_bound := monthKey month_start,
    to_bound := monthKey (get_month_end month_start) }

/-- One operation issued against the secondary store. -/
inductive StoreOp
  /-- `ensure_partitions(storage, month)` was called for this month. -/
  | createPartition (month : DateTime)
  /-- `storage.insert_logs(session_id, payload)` copied these records
  (each record is `(session_id, *log fields)` in payload order). -/
  | insertLogs (session_id : Int) (records : List (Int × LogLine))
deriving DecidableEq, Repr

/-- `postgres.PostgresStorage.insert_logs`, modelled as the returned row
count together with whether a pool connection was acquired; an
uninitialised pool raises `PostgresStorageError` from the `pool`
property. -/
def insert_logs (pool_connected : Bool) (logs : List LogLine) :
    Except String (Nat × Bool) :=
  if logs = [] then .ok (0, false)
  else if pool_connected then .ok (logs.length, true)
  else .error "Pool has not been initialised. Call connect() first."

/-- The records `insert_logs` renders: `(session_id, *fields)` for each
log line, in the order of the input sequence. -/
def insert_logs_records (session_id : Int) (logs : List LogLine) : List (Int × LogLine) :=
  logs.map (fun l => (session_id, l))

/-! ## Partition cache (`runtime._ensure_partitions_for_logs`) -/

/-- `set.add` on a duplicate-free list model of a Python set. -/
def cacheAdd (cache : List String) (key : String) : List String :=
  if key ∈ cache then cache else key :: cache

/-- `set.discard` on the list model. -/
def cacheDiscard (cache : List String) (key : String) : List String :=
  cache.filter (fun k => k ≠ key)

/-- First-occurrence deduplication; models iterating the Python set
comprehension `{_normalize_month(log.event_time) for log in logs}` in
first-occurrence order. -/
def dedupFirst : List DateTime → List DateTime
  | [] => []
  | a :: rest => a :: (dedupFirst rest).filter (fun b => b ≠ a)

/-- One iteration of the partition-ensure loop that reached the store:
the cache contents at the instant `ensure_partitions` is awaited (the
call is in flight), the month passed to it, and whether it returned
successfully. -/
structure EnsureStep where
  cacheAtCall : List String
  month : DateTime
  succeeded : Bool
deriving DecidableEq, Repr

/-- The `for month in months` loop of `_ensure_partitions_for_logs`:
skip cached keys, add the key, await the create, and on failure discard
the key and re-raise.  `ok` is the store's behaviour (whether the create
for a key succeeds); the result is the final cache, the store calls in
order, and the key whose create raised, if any. -/
def ensureLoop (ok : String → Bool) (cache : List String) :
    List DateTime → List String × List EnsureStep × Option String
  | [] => (cache, [], none)
  | month :: rest =>
    let key := monthKey month
    if key ∈ cache then ensureLoop ok cache rest
    else
      let cache' := cacheAdd cache key
      if ok key then
        let r := ensureLoop ok cache' rest
        (r.1, ⟨cache', month, true⟩ :: r.2.1, r.2.2)
      else
        (cacheDiscard cache' key, [⟨cache', month, false⟩], some key)

/-- `runtime._ensure_partitions_for_logs`: a no-op on an empty batch or a
disconnected storage handle, else the ensure loop over the distinct
normalized months of the batch. -/
def ensure_partitions_for_logs (storage_connected : Bool) (ok : String → Bool)
    (cache : List String) (logs : List LogLine) :
    List String × List EnsureStep × Option String :=
  if logs = [] ∨ storage_connected = false then (cache, [], none)
  else ensureLoop ok cache (dedupFirst (logs.map (fun l => normalize_month l.event_time)))

/-- The unit of work `_run` built by `runtime.replicate_session_logs`:
`_get_storage()` (raising on a disconnected storage), then
`_ensure_partitions_for_logs(payload)`, then
`storage.insert_logs(session_id, payload)`.  Returns the final cache, the
store calls in order, and whether the unit completed without raising. -/
def run_session_logs_unit (storage_connected : Bool) (ok : String → Bool)
    (cache : List String) (session_id : Int) (payload : List LogLine) :
    List String × List StoreOp × Bool :=
  if storage_connected = false then (cache, [], false)
  else
    let e := ensure_partitions_for_logs storage_connected ok cache payload
    let creates := e.2.1.map (fun st => StoreOp.createPartition st.month)
    match e.2.2 with
    | some _ => (e.1, creates, false)
    | none =>
      match insert_logs storage_connected payload with
      | .error _ => (e.1, creates, false)
      | .ok r =>
        (e.1, creates ++ (if r.2 then [StoreOp.insertLogs session_id (insert_logs_records session_id payload)] else []), true)

/-! ## Runtime module state and the scheduler -/

/-- `runtime.StorageMode`. -/
inductive StorageMode
  | sqlite
  | dual
  | postgres
deriving DecidableEq, Repr

/-- `runtime.SessionReplica`. -/
structure SessionReplica where
  session_id : Int
  guild_id : Int
  name : String
  start_time : DateTime
  end_time : Option DateTime
  is_auto : Bool
  credentials_id : Option Int
  modifier_flags : Int
deriving DecidableEq, Repr

/-- `runtime.CredentialReplica`. -/
structure CredentialReplica where
  id : Int
  guild_id : Int
  name : String
  address : String
  port : Int
  password : String
  default_modifiers : Int
  autosession_enabled : Bool
deriving DecidableEq, Repr

/-- `runtime.ApiKeyReplica`. -/
structure ApiKeyReplica where
  id : Int
  guild_id : Int
  tag : String
  key : Option String
deriving DecidableEq, Repr

/-- `runtime.MAX_CONCURRENT_WRITES`. -/
def MAX_CONCURRENT_WRITES : Nat := 10

/-- `runtime.QUEUE_WARN_THRESHOLD`. -/
def QUEUE_WARN_THRESHOLD : Nat := 25

/-- `runtime.RETRY_INITIAL_DELAY` (0.5 s), in deciseconds. -/
def RETRY_INITIAL_DELAY_DS : Nat := 5

/-- `runtime.RETRY_MAX_DELAY` (30 s), in deciseconds. -/
def RETRY_MAX_DELAY_DS : Nat := 300

/-- The module-level mutable state of `runtime.py` that the submission
path reads and writes: the resolved storage mode and whether a DSN was
configured (`_POSTGRES_CONFIG is not None`), the connection handle
(`_pg_storage is not None`), the pending-task deque (as the labels of the
tracked tasks), the partition cache, and the draining flag. -/
structure RuntimeState where
  storage_mode : StorageMode
  has_postgres_config : Bool
  pg_connected : Bool
  pending_tasks : List String
  partition_cache : List String
  shutting_down : Bool
deriving DecidableEq, Repr

/-- `runtime.should_write_to_postgres`. -/
def should_write_to_postgres (s : RuntimeState) : Bool :=
  (s.storage_mode = StorageMode.dual ∨ s.storage_mode = StorageMode.postgres) ∧
    s.has_postgres_config

/-- `runtime._replication_enabled`. -/
def replication_enabled (s : RuntimeState) : Bool :=
  should_write_to_postgres s && !s.shutting_down

/-- What a call of `runtime._schedule` did before returning. -/
inductive ScheduleEffect
  /-- Replication disabled: returned with no effect. -/
  | noop
  /-- A running loop existed: a task was created and tracked; the unit
  runs in the background after the call returns. -/
  | spawned (label : String)
  /-- No running loop: `asyncio.run(_runner())` executed the whole unit
  (retry loop included) synchronously before the call returned. -/
  | ranSync (label : String)
deriving DecidableEq, Repr

/-- `runtime._schedule`: no-op when replication is disabled; with a
running event loop, create the task and track it (`_track_task` appends
to the pending deque); with no running loop, run the unit to completion
synchronously via `asyncio.run`. -/
def schedule (s : RuntimeState) (loop_running : Bool) (label : String) :
    RuntimeState × ScheduleEffect :=
  if replication_enabled s = false then (s, .noop)
  else if loop_running then
    ({ s with pending_tasks := s.pending_tasks ++ [label] }, .spawned label)
  else (s, .ranSync label)

/-- `runtime.replicate_session`. -/
def replicate_session (s : RuntimeState) (loop_running : Bool)
    (record : SessionReplica) : RuntimeState × ScheduleEffect :=
  if replication_enabled s = false then (s, .noop)
  else schedule s loop_running ("pg-session-" ++ toString record.session_id)

/-- `runtime.replicate_session_deletion`. -/
def replicate_session_deletion (s : RuntimeState) (loop_running : Bool)
    (session_id : Int) : RuntimeState × ScheduleEffect :=
  if replication_enabled s = false then (s, .noop)
  else schedule s loop_running ("pg-session-delete-" ++ toString session_id)

/-- `runtime.replicate_session_mark_deleted`. -/
def replicate_session_mark_deleted (s : RuntimeState) (loop_running : Bool)
    (session_id : Int) (deleted_at : Option DateTime) : RuntimeState × ScheduleEffect :=
  let _ := deleted_at
  if replication_enabled s = false then (s, .noop)
  else schedule s loop_running ("pg-session-mark-deleted-" ++ toString session_id)

/-- `runtime.replicate_session_logs` (submission side): returns at once
on an empty batch or when replication is disabled; otherwise deep-copies
the lines (value copies in this model) and schedules the unit. -/
def replicate_session_logs (s : RuntimeState) (loop_running : Bool)
    (session_id : Int) (logs : List LogLine) : RuntimeState × ScheduleEffect :=
  if logs = [] ∨ replication_enabled s = false then (s, .noop)
  else schedule s loop_running ("pg-session-logs-" ++ toString session_id)

/-- `runtime.replicate_session_log_purge`. -/
def replicate_session_log_purge (s : RuntimeState) (loop_running : Bool)
    (session_id : Int) : RuntimeState × ScheduleEffect :=
  if replication_enabled s = false then (s, .noop)
  else schedule s loop_running ("pg-session-log-purge-" ++ toString session_id)

/-- `runtime.replicate_credentials`. -/
def replicate_credentials (s : RuntimeState) (loop_running : Bool)
    (record : CredentialReplica) : RuntimeState × ScheduleEffect :=
  if replication_enabled s = false then (s, .noop)
  else schedule s loop_running ("pg-credentials-" ++ toString record.id)

/-- `runtime.delete_credentials`. -/
def delete_credentials (s : RuntimeState) (loop_running : Bool)
    (credential_id : Int) : RuntimeState × ScheduleEffect :=
  if replication_enabled s = false then (s, .noop)
  else schedule s loop_running ("pg-credentials-delete-" ++ toString credential_id)

/-- `runtime.replicate_api_key`. -/
def replicate_api_key (s : RuntimeState) (loop_running : Bool)
    (record : ApiKeyReplica) : RuntimeState × ScheduleEffect :=
  if replication_enabled s = false then (s, .noop)
  else schedule s loop_running ("pg-api-key-" ++ toString record.id)

/-- `runtime.delete_api_key`. -/
def delete_api_key (s : RuntimeState) (loop_running : Bool)
    (api_key_id : Int) : RuntimeState × ScheduleEffect :=
  if replication_enabled s = false then (s, .noop)
  else schedule s loop_running ("pg-api-key-delete-" ++ toString api_key_id)

/-! ## Readiness wait and the retry executor -/

/-- One observation of the module flags taken by an iteration of the
`while True` loop in `runtime._wait_for_storage`: the draining flag and
whether `_pg_storage` is connected at that instant (both can change
between iterations, across the `await asyncio.sleep(0.5)`). -/
structure WaitObs where
  shutting_down : Bool
  storage_ready : Bool
deriving DecidableEq, Repr

/-- How a call of `_wait_for_storage` ended. -/
inductive WaitResult
  /-- Returned normally: storage was ready. -/
  | ok
  /-- Raised `RuntimeError`. -/
  | raised (msg : String)
  /-- Still looping when the observation stream ran out (the loop has no
  bound of its own). -/
  | stillWaiting
deriving DecidableEq, Repr

/-- An event in a unit's execution trace, used to track where the
concurrency-gate permit is held. -/
inductive Ev
  /-- One readiness-wait iteration that slept 0.5 s. -/
  | waitTick
  /-- `async with _concurrency_gate` acquired a permit. -/
  | acquire
  /-- The single store attempt `await coro_factory()` ran. -/
  | attemptEv
  /-- The permit was released (on success, exception and cancellation
  alike — the `async with` block guarantees it). -/
  | release
  /-- `await asyncio.sleep(delay)` after a failed attempt (delay in
  deciseconds). -/
  | backoffSleep (delay : Nat)
deriving DecidableEq, Repr

/-- `runtime._wait_for_storage` over an observation stream: raise if
draining, return if ready, else sleep and recheck.  Also yields one
`waitTick` per iteration that slept. -/
def wait_for_storage (label : String) : List WaitObs → WaitResult × List Ev
  | [] => (.stillWaiting, [])
  | o :: rest =>
    if o.shutting_down then
      (.raised ("Postgres storage shutting down during " ++ label), [])
    else if o.storage_ready then (.ok, [])
    else
      let r := wait_for_storage label rest
      (r.1, .waitTick :: r.2)

/-- Outcome of the attempt body `await coro_factory()` in one round of
`_execute_with_retry`. -/
inductive AttemptResult
  /-- The coroutine returned. -/
  | success
  /-- `asyncio.CancelledError` was raised. -/
  | cancelled
  /-- Any other exception. -/
  | failure
deriving DecidableEq, Repr

/-- The environment one iteration of the retry loop runs against: the
observations the readiness wait sees, the draining flag at the check
after the wait, and how the attempt would end if reached. -/
structure Round where
  wait_obs : List WaitObs
  post_drain : Bool
  attempt : AttemptResult
deriving DecidableEq, Repr

/-- How a run of `_execute_with_retry` ended. -/
inductive ExecOutcome
  /-- An attempt succeeded; the executor returned. -/
  | success
  /-- A `RuntimeError` from `_wait_for_storage` propagated (the call sits
  outside the `try` block). -/
  | raised (msg : String)
  /-- `asyncio.CancelledError` was re-raised. -/
  | cancelled
  /-- Returned normally because draining was observed after readiness. -/
  | skippedDrain
  /-- The round environment ran out with the loop still going. -/
  | running
deriving DecidableEq, Repr

/-- `runtime._execute_with_retry` over a round environment, starting
from backoff delay `delay` (deciseconds): wait for readiness, check the
draining flag, run the single attempt under the gate, and on failure
sleep the current delay, double it capped at `RETRY_MAX_DELAY_DS`, and
loop.  Returns the outcome, the event trace, and the backoff delays
slept in order. -/
def execute_with_retry (label : String) (delay : Nat) :
    List Round → ExecOutcome × List Ev × List Nat
  | [] => (.running, [], [])
  | r :: rest =>
    let w := wait_for_storage label r.wait_obs
    match w.1 with
    | .raised m => (.raised m, w.2, [])
    | .stillWaiting => (.running, w.2, [])
    | .ok =>
      if r.post_drain then (.skippedDrain, w.2, [])
      else
        match r.attempt with
        | .success => (.success, w.2 ++ [.acquire, .attemptEv, .release], [])
        | .cancelled => (.cancelled, w.2 ++ [.acquire, .attemptEv, .release], [])
        | .failure =>
          let k := execute_with_retry label (min (delay * 2) RETRY_MAX_DELAY_DS) rest
          (k.1, w.2 ++ [.acquire, .attemptEv, .release, .backoffSleep delay] ++ k.2.1,
            delay :: k.2.2)

/-- The `_task_done` callback installed by `runtime._track_task`: it
calls `t.result()` and logs "Postgres task failed" for any `Exception`
result; `CancelledError` is not an `Exception` subclass and a successful
or silently-returned task logs nothing. -/
def task_done_logs_failure : ExecOutcome → Bool
  | .raised _ => true
  | _ => false

/-! ## The concurrency gate as a counting semaphore -/

/-- Checks that a unit's event trace holds the gate permit exactly
around its single attempt: every `attemptEv` is immediately preceded by
`acquire` and immediately followed by `release`, and every readiness
tick or backoff sleep happens while no permit is held. -/
def gateOk : List Ev → Bool
  | [] => true
  | .acquire :: .attemptEv :: .release :: rest => gateOk rest
  | .waitTick :: rest => gateOk rest
  | .backoffSleep _ :: rest => gateOk rest
  | _ => false

/-- Global state of `_concurrency_gate` (an `asyncio.Semaphore` with
`MAX_CONCURRENT_WRITES` permits) together with how many units are inside
their store attempt. -/
structure SemState where
  permits : Nat
  inAttempt : Nat
deriving DecidableEq, Repr

/-- The semaphore's transitions: a unit enters its attempt only by
acquiring an available permit, and leaving the attempt returns the
permit (the `async with` releases on every exit path). -/
inductive SemStep : SemState → SemState → Prop
  | acquire (s : SemState) : 0 < s.permits →
      SemStep s ⟨s.permits - 1, s.inAttempt + 1⟩
  | release (s : SemState) : 0 < s.inAttempt →
      SemStep s ⟨s.permits + 1, s.inAttempt - 1⟩

/-- The gate's initial state: all permits free, no unit mid-attempt. -/
def semInit : SemState := ⟨MAX_CONCURRENT_WRITES, 0⟩

/-- States the gate can reach. -/
def SemReachable (s : SemState) : Prop :=
  Relation.ReflTransGen SemStep semInit s

/-! ## Helper lemmas -/

/-- The invariants of the partition-ensure loop: a key is in the final
cache only if it was already cached or its create succeeded; the key of
a failed create is absent from the final cache; and at the instant each
create call is issued, its key is already in the cache (the optimistic
add). -/
theorem ensureLoop_spec (ok : String → Bool) :
    ∀ (months : List DateTime) (cache : List String),
      (∀ k, k ∈ (ensureLoop ok cache months).1 →
        k ∈ cache ∨ ∃ st ∈ (ensureLoop ok cache months).2.1,
          monthKey st.month = k ∧ st.succeeded = true) ∧
      (∀ k, (ensureLoop ok cache months).2.2 = some k →
        k ∉ (ensureLoop ok cache months).1) ∧
      (∀ st ∈ (ensureLoop ok cache months).2.1, monthKey st.month ∈ st.cacheAtCall) := by
  intro months
  induction months with
  | nil =>
    intro cache
    refine ⟨fun k hk => Or.inl hk, fun k hk => by simp [ensureLoop] at hk, ?_⟩
    intro st hst
    simp [ensureLoop] at hst
  | cons month rest ih =>
    intro cache
    by_cases hmem : monthKey month ∈ cache
    · have hunf : ensureLoop ok cache (month :: rest) = ensureLoop ok cache rest := by
        simp [ensureLoop, hmem]
      rw [hunf]
      exact ih cache
    · by_cases hok : ok (monthKey month) = true
      · have hadd : cacheAdd cache (monthKey month) = monthKey month :: cache := by
          simp [cacheAdd, hmem]
        have hunf : ensureLoop ok cache (month :: rest) =
            ((ensureLoop ok (monthKey month :: cache) rest).1,
              ⟨monthKey month :: cache, month, true⟩ ::
                (ensureLoop ok (monthKey month :: cache) rest).2.1,
              (ensureLoop ok (monthKey month :: cache) rest).2.2) := by
          simp [ensureLoop, hmem, hadd, hok]
        obtain ⟨ih1, ih2, ih3⟩ := ih (monthKey month :: cache)
        rw [hunf]
        refine ⟨?_, ?_, ?_⟩
        · intro k hk
          rcases ih1 k hk with hc | ⟨st, hst, hkey, hsucc⟩
          · rcases List.mem_cons.mp hc with heq | hc'
            · exact Or.inr ⟨⟨monthKey month :: cache, month, true⟩,
                List.mem_cons_self _ _, by simp [heq], rfl⟩
            · exact Or.inl hc'
          · exact Or.inr ⟨st, List.mem_cons_of_mem _ hst, hkey, hsucc⟩
        · intro k hk
          exact ih2 k hk
        · intro st hst
          rcases List.mem_cons.mp hst with heq | hst'
          · subst heq
            exact List.mem_cons_self _ _
          · exact ih3 st hst'
      · have hadd : cacheAdd cache (monthKey month) = monthKey month :: cache := by
          simp [cacheAdd, hmem]
        have hunf : ensureLoop ok cache (month :: rest) =
            (cacheDiscard (monthKey month :: cache) (monthKey month),
              [⟨monthKey month :: cache, month, false⟩], some (monthKey month)) := by
          simp [ensureLoop, hmem, hadd, hok]
        rw [hunf]
        refine ⟨?_, ?_, ?_⟩
        · intro k hk
          simp only [cacheDiscard, List.mem_filter, List.mem_cons, decide_eq_true_eq] at hk
          rcases hk with ⟨heq | hc, hne⟩
          · exact absurd heq hne
          · exact Or.inl hc
        · intro k hk
          simp only [Option.some.injEq] at hk
          subst hk
          intro hin
          simp [cacheDiscard, List.mem_filter] at hin
        · intro st hst
          simp only [List.mem_singleton] at hst
          subst hst
          exact List.mem_cons_self _ _

/-! ## Claim C1: when is a key in the partition cache? -/

/-- Claim C1 (counterexample): `_ensure_partitions_for_logs` adds the month
key to the cache *before* awaiting the partition create: on a one-line
batch for March 2024 with an empty cache and a succeeding store, the
single create call is issued with its own key `"2024-03-01"` already in
the cache — the key is present while the create is in flight, refuting
the claim that a key is present only after the create returned
successfully. -/
theorem c1_cache_counterexample :
    (ensure_partitions_for_logs true (fun _ => true) []
        [⟨⟨2024, 3, 5, 10, 0, 0, 0, none⟩, 1⟩]).2.1 =
      [⟨["2024-03-01"], ⟨2024, 3, 1, 0, 0, 0, 0, some 0⟩, true⟩] ∧
    monthKey ⟨2024, 3, 1, 0, 0, 0, 0, some 0⟩ ∈ (["2024-03-01"] : List String) := by
  decide

/-- Claim C1 (amended): the cache entry is optimistic: the key is added
before the create call is awaited (it is in the cache at the instant of
every create call), it is discarded when the create fails (the key of a
raised create is absent from the final cache), and a key is in the final
cache only if it was already cached or its create returned
successfully. -/
theorem c1_cache_amended (storage_connected : Bool) (ok : String → Bool)
    (cache : List String) (logs : List LogLine) :
    (∀ st ∈ (ensure_partitions_for_logs storage_connected ok cache logs).2.1,
      monthKey st.month ∈ st.cacheAtCall) ∧
    (∀ k, (ensure_partitions_for_logs storage_connected ok cache logs).2.2 = some k →
      k ∉ (ensure_partitions_for_logs storage_connected ok cache logs).1) ∧
    (∀ k, k ∈ (ensure_partitions_for_logs storage_connected ok cache logs).1 →
      k ∈ cache ∨ ∃ st ∈ (ensure_partitions_for_logs storage_connected ok cache logs).2.1,
        monthKey st.month = k ∧ st.succeeded = true) := by
  unfold ensure_partitions_for_logs
  by_cases h : logs = [] ∨ storage_connected = false
  · rw [if_pos h]
    exact ⟨fun st hst => by simp at hst, fun k hk => by simp at hk, fun k hk => Or.inl hk⟩
  · rw [if_neg h]
    obtain ⟨h1, h2, h3⟩ :=
      ensureLoop_spec ok (dedupFirst (logs.map (fun l => normalize_month l.event_time))) cache
    exact ⟨h3, h2, h1⟩

/-- Claim C1 (witness for the amended theorem): on a one-line batch whose
create fails, the raised key `"2024-03-01"` is not in the final cache. -/
theorem c1_cache_amended_witness :
    "2024-03-01" ∉ (ensure_partitions_for_logs true (fun _ => false) []
      [⟨⟨2024, 3, 5, 10, 0, 0, 0, none⟩, 1⟩]).1 :=
  (c1_cache_amended true (fun _ => false) [] [⟨⟨2024, 3, 5, 10, 0, 0, 0, none⟩, 1⟩]).2.1
    "2024-03-01" (by decide)

/-! ## Claim C5: month normalization and UTC -/

/-- Claim C5 (counterexample): for the event time 2024-03-01 00:30 at
offset UTC+5 (300 minutes), the corresponding UTC instant is
2024-02-29 19:30, whose calendar month is February; but
`_normalize_month` applies `datetime.replace`, which never converts
zones, so the code's key is `"2024-03-01"` while the claimed key is
`"2024-02-01"`. -/
theorem c5_normalize_counterexample :
    monthKey (normalize_month ⟨2024, 3, 1, 0, 30, 0, 0, some 300⟩) = "2024-03-01" ∧
    monthKey (normalize_month_utc_spec ⟨2024, 3, 1, 0, 30, 0, 0, some 300⟩) = "2024-02-01" ∧
    monthKey (normalize_month ⟨2024, 3, 1, 0, 30, 0, 0, some 300⟩) ≠
      monthKey (normalize_month_utc_spec ⟨2024, 3, 1, 0, 30, 0, 0, some 300⟩) := by
  refine ⟨by decide, by decide, by decide⟩

/-- Claim C5 (amended): the key is the start of the event time's *own*
calendar month — the sub-month fields are zeroed and the original
timezone is retained (UTC is attached only to a naive timestamp); no
conversion to UTC takes place.  For a naive or UTC event time this
coincides with the UTC calendar month, but not for other offsets. -/
theorem c5_normalize_amended (dt : DateTime) (hh : dt.hour < 24) (hm : dt.minute < 60) :
    normalize_month dt =
      { year := dt.year, month := dt.month, day := 1, hour := 0, minute := 0,
        second := 0, microsecond := 0,
        tzOffsetMinutes := some (dt.tzOffsetMinutes.getD 0) } ∧
    ((dt.tzOffsetMinutes = none ∨ dt.tzOffsetMinutes = some 0) →
      monthKey (normalize_month dt) = monthKey (normalize_month_utc_spec dt)) := by
  obtain ⟨y, mo, d, h, mi, se, us, tz⟩ := dt
  simp only at hh hm
  constructor
  · cases tz <;> simp [normalize_month]
  · rintro (h0 | h0)
    · cases h0
      simp [normalize_month, normalize_month_utc_spec, toUTC, monthKey]
    · cases h0
      have hy : (toUTC ⟨y, mo, d, h, mi, se, us, some 0⟩).year = y := by
        simp only [toUTC, sub_zero]
        rw [if_neg (by omega : ¬(((h * 60 + mi : Nat) : Int) < 0)),
          if_neg (by omega : ¬((1440 : Int) ≤ ((h * 60 + mi : Nat) : Int)))]
      have hmo : (toUTC ⟨y, mo, d, h, mi, se, us, some 0⟩).month = mo := by
        simp only [toUTC, sub_zero]
        rw [if_neg (by omega : ¬(((h * 60 + mi : Nat) : Int) < 0)),
          if_neg (by omega : ¬((1440 : Int) ≤ ((h * 60 + mi : Nat) : Int)))]
      simp [normalize_month, normalize_month_utc_spec, monthKey, hy, hmo]

/-- Claim C5 (witness for the amended theorem) at a naive March timestamp. -/
theorem c5_normalize_amended_witness :
    normalize_month ⟨2024, 3, 5, 10, 30, 0, 0, none⟩ =
      { year := 2024, month := 3, day := 1, hour := 0, minute := 0, second := 0,
        microsecond := 0, tzOffsetMinutes := some 0 } ∧
    monthKey (normalize_month ⟨2024, 3, 5, 10, 30, 0, 0, none⟩) =
      monthKey (normalize_month_utc_spec ⟨2024, 3, 5, 10, 30, 0, 0, none⟩) :=
  ⟨(c5_normalize_amended ⟨2024, 3, 5, 10, 30, 0, 0, none⟩ (by decide) (by decide)).1,
    (c5_normalize_amended ⟨2024, 3, 5, 10, 30, 0, 0, none⟩ (by decide) (by decide)).2
      (Or.inl rfl)⟩

/-! ## Claim C6: at-most-one create per month; failed creates retried -/

/-- Claim C6: ensuring partitions for the same month twice issues exactly
one create when the first create succeeds (the first run performs the
single create, the second run performs none); and when a create fails,
its key is absent from the cache afterwards, so a subsequent ensure for
the same month issues the create again. -/
theorem c6_single_create_and_retry (ok ok' : String → Bool) (cache : List String)
    (l : LogLine) (hmem : monthKey (normalize_month l.event_time) ∉ cache) :
    (ok (monthKey (normalize_month l.event_time)) = true →
      ensure_partitions_for_logs true ok cache [l] =
        (monthKey (normalize_month l.event_time) :: cache,
          [⟨monthKey (normalize_month l.event_time) :: cache, normalize_month l.event_time, true⟩],
          none) ∧
      (ensure_partitions_for_logs true ok'
        (monthKey (normalize_month l.event_time) :: cache) [l]).2.1 = []) ∧
    (ok (monthKey (normalize_month l.event_time)) = false →
      monthKey (normalize_month l.event_time) ∉
        (ensure_partitions_for_logs true ok cache [l]).1 ∧
      (ok' (monthKey (normalize_month l.event_time)) = true →
        (ensure_partitions_for_logs true ok'
            (ensure_partitions_for_logs true ok cache [l]).1 [l]).2.1 =
          [⟨monthKey (normalize_month l.event_time) ::
              (ensure_partitions_for_logs true ok cache [l]).1,
            normalize_month l.event_time, true⟩])) := by
  constructor
  · intro hok
    constructor
    · simp [ensure_partitions_for_logs, dedupFirst, ensureLoop, cacheAdd, hmem, hok]
    · simp [ensure_partitions_for_logs, dedupFirst, ensureLoop]
  · intro hok
    have hfail : ensure_partitions_for_logs true ok cache [l] =
        (cacheDiscard (monthKey (normalize_month l.event_time) :: cache)
            (monthKey (normalize_month l.event_time)),
          [⟨monthKey (normalize_month l.event_time) :: cache, normalize_month l.event_time,
             false⟩],
          some (monthKey (normalize_month l.event_time))) := by
      simp [ensure_partitions_for_logs, dedupFirst, ensureLoop, cacheAdd, hmem, hok]
    have habsent : monthKey (normalize_month l.event_time) ∉
        (ensure_partitions_for_logs true ok cache [l]).1 := by
      rw [hfail]
      simp [cacheDiscard, List.mem_filter]
    refine ⟨habsent, fun hok' => ?_⟩
    rw [hfail] at habsent ⊢
    simp only at habsent ⊢
    simp [ensure_partitions_for_logs, dedupFirst, ensureLoop, cacheAdd, habsent, hok']

/-- Claim C6 (witness) for the March 2024 month key on an empty cache. -/
theorem c6_single_create_and_retry_witness :
    ensure_partitions_for_logs true (fun _ => true) []
        [⟨⟨2024, 3, 5, 10, 0, 0, 0, none⟩, 1⟩] =
      (["2024-03-01"],
        [⟨["2024-03-01"], ⟨2024, 3, 1, 0, 0, 0, 0, some 0⟩, true⟩], none) ∧
    (ensure_partitions_for_logs true (fun _ => true) ["2024-03-01"]
      [⟨⟨2024, 3, 5, 10, 0, 0, 0, none⟩, 1⟩]).2.1 = [] := by
  have h := (c6_single_create_and_retry (fun _ => true) (fun _ => true) []
    ⟨⟨2024, 3, 5, 10, 0, 0, 0, none⟩, 1⟩ (by decide)).1 rfl
  exact ⟨h.1, by rw [show (["2024-03-01"] : List String) =
    monthKey (normalize_month (⟨⟨2024, 3, 5, 10, 0, 0, 0, none⟩, 1⟩ : LogLine).event_time) :: []
      from by decide]; exact h.2⟩

/-! ## Claim C7: the two-month log batch scenario -/

/-- Claim C7: on a batch of two March-2024 lines and one April-2024 line,
with an empty cache and an all-succeeding store, the unit of work issues
exactly the trace: a partition create for month 2024-03, a partition
create for month 2024-04, and then the single bulk insert carrying all
three lines in their original submission order; the unit completes
successfully. -/
theorem c7_two_month_batch :
    run_session_logs_unit true (fun _ => true) [] 5
        [⟨⟨2024, 3, 5, 10, 0, 0, 0, none⟩, 1⟩, ⟨⟨2024, 3, 20, 11, 0, 0, 0, none⟩, 2⟩,
          ⟨⟨2024, 4, 2, 12, 0, 0, 0, none⟩, 3⟩] =
      (["2024-04-01", "2024-03-01"],
        [StoreOp.createPartition ⟨2024, 3, 1, 0, 0, 0, 0, some 0⟩,
          StoreOp.createPartition ⟨2024, 4, 1, 0, 0, 0, 0, some 0⟩,
          StoreOp.insertLogs 5
            [(5, ⟨⟨2024, 3, 5, 10, 0, 0, 0, none⟩, 1⟩),
              (5, ⟨⟨2024, 3, 20, 11, 0, 0, 0, none⟩, 2⟩),
              (5, ⟨⟨2024, 4, 2, 12, 0, 0, 0, none⟩, 3⟩)]],
        true) ∧
    monthKey ⟨2024, 3, 1, 0, 0, 0, 0, some 0⟩ = "2024-03-01" ∧
    monthKey ⟨2024, 4, 1, 0, 0, 0, 0, some 0⟩ = "2024-04-01" := by
  decide

/-! ## Claim C2: what `_schedule` does before returning -/

/-- Claim C2 (counterexample): with replication enabled but no running
event loop in the caller's context, `_schedule` does not create a
background task at all: it falls into the `except RuntimeError` branch
and calls `asyncio.run(_runner())`, executing the whole unit (retry loop
included) synchronously before returning, and tracks nothing in the
pending set. -/
theorem c2_schedule_counterexample :
    replication_enabled ⟨StorageMode.dual, true, true, [], [], false⟩ = true ∧
    (schedule ⟨StorageMode.dual, true, true, [], [], false⟩ false "pg-session-1").2 =
      .ranSync "pg-session-1" ∧
    (schedule ⟨StorageMode.dual, true, true, [], [], false⟩ false "pg-session-1").2 ≠
      .spawned "pg-session-1" ∧
    (schedule ⟨StorageMode.dual, true, true, [], [], false⟩ false
      "pg-session-1").1.pending_tasks = [] := by
  decide

/-- Claim C2 (amended): when replication is enabled, `_schedule` creates a
background task and records it in the pending set without awaiting it
*only when an event loop is running*; when no loop is running it instead
executes the unit synchronously to completion via `asyncio.run` before
returning. -/
theorem c2_schedule_amended (s : RuntimeState) (label : String)
    (hen : replication_enabled s = true) :
    schedule s true label =
      ({ s with pending_tasks := s.pending_tasks ++ [label] }, .spawned label) ∧
    schedule s false label = (s, .ranSync label) := by
  simp [schedule, hen]

/-- Claim C2 (witness for the amended theorem) at an enabled dual-mode
state. -/
theorem c2_schedule_amended_witness :
    schedule ⟨StorageMode.dual, true, true, [], [], false⟩ true "pg-session-7" =
      (⟨StorageMode.dual, true, true, ["pg-session-7"], [], false⟩, .spawned "pg-session-7") ∧
    schedule ⟨StorageMode.dual, true, true, [], [], false⟩ false "pg-session-7" =
      (⟨StorageMode.dual, true, true, [], [], false⟩, .ranSync "pg-session-7") :=
  c2_schedule_amended ⟨StorageMode.dual, true, true, [], [], false⟩ "pg-session-7" (by decide)

/-! ## Claim C3: draining observed during the readiness wait -/

/-- Claim C3 (counterexample): when the draining flag is observed during
the readiness wait, `_wait_for_storage` raises `RuntimeError`; the raise
happens *outside* the `try` of `_execute_with_retry`, so the exception
propagates out of the unit's task, and the `_task_done` callback then
logs a failure for it — the unit is not abandoned silently. -/
theorem c3_drain_counterexample :
    execute_with_retry "pg-session-logs-1" RETRY_INITIAL_DELAY_DS
        [⟨[⟨true, false⟩], false, .success⟩] =
      (.raised "Postgres storage shutting down during pg-session-logs-1", [], []) ∧
    task_done_logs_failure
      (.raised "Postgres storage shutting down during pg-session-logs-1") = true := by
  decide

/-- Claim C3 (amended): draining observed during the readiness wait makes
`_wait_for_storage` raise a `RuntimeError` naming the label, which
propagates out of the retry loop and is logged as a failure by the
task-done callback; only draining observed *after* readiness, at the
check before the attempt, abandons the unit silently (normal return,
nothing logged). -/
theorem c3_drain_amended (label : String) (delay : Nat) (obs : List WaitObs)
    (post : Bool) (att : AttemptResult) (rest : List Round) :
    (∀ o os, obs = o :: os → o.shutting_down = true →
      (wait_for_storage label obs).1 =
        .raised ("Postgres storage shutting down during " ++ label)) ∧
    (∀ m, (wait_for_storage label obs).1 = .raised m →
      (execute_with_retry label delay (⟨obs, post, att⟩ :: rest)).1 = .raised m ∧
      task_done_logs_failure
        (execute_with_retry label delay (⟨obs, post, att⟩ :: rest)).1 = true) ∧
    ((wait_for_storage label obs).1 = .ok → post = true →
      (execute_with_retry label delay (⟨obs, post, att⟩ :: rest)).1 = .skippedDrain ∧
      task_done_logs_failure
        (execute_with_retry label delay (⟨obs, post, att⟩ :: rest)).1 = false) := by
  refine ⟨?_, ?_, ?_⟩
  · rintro o os rfl hsd
    simp [wait_for_storage, hsd]
  · intro m hm
    have hr : (execute_with_retry label delay (⟨obs, post, att⟩ :: rest)).1 = .raised m := by
      simp [execute_with_retry, hm]
    exact ⟨hr, by rw [hr]; rfl⟩
  · intro hok hpost
    have hr : (execute_with_retry label delay (⟨obs, post, att⟩ :: rest)).1 = .skippedDrain := by
      simp [execute_with_retry, hok, hpost]
    exact ⟨hr, by rw [hr]; rfl⟩

/-- Claim C3 (witness for the amended theorem): a concrete round whose wait
observes draining. -/
theorem c3_drain_amended_witness :
    (execute_with_retry "pg-x" 5 [⟨[⟨true, false⟩], false, .success⟩]).1 =
      .raised ("Postgres storage shutting down during " ++ "pg-x") ∧
    task_done_logs_failure
      (execute_with_retry "pg-x" 5 [⟨[⟨true, false⟩], false, .success⟩]).1 = true :=
  (c3_drain_amended "pg-x" 5 [⟨true, false⟩] false .success []).2.1
    ("Postgres storage shutting down during " ++ "pg-x") (by decide)

/-! ## Claim C4: the exponential backoff sequence -/

/-- A retry-loop round in which storage is ready at once, draining is not
observed, and the attempt fails. -/
def failingRound : Round := ⟨[⟨false, true⟩], false, .failure⟩

/-- A retry-loop round in which storage is ready at once, draining is not
observed, and the attempt succeeds. -/
def succeedingRound : Round := ⟨[⟨false, true⟩], false, .success⟩

/-- The iterated double-with-cap update of the backoff delay admits the
closed form `min (d * 2 ^ i) cap`. -/
theorem min_double_capped (d i : Nat) :
    min (min (d * 2) RETRY_MAX_DELAY_DS * 2 ^ i) RETRY_MAX_DELAY_DS =
      min (d * 2 * 2 ^ i) RETRY_MAX_DELAY_DS := by
  unfold RETRY_MAX_DELAY_DS
  rcases le_or_lt (d * 2) 300 with hle | hlt
  · rw [min_eq_left hle]
  · have hp : 0 < 2 ^ i := pow_pos (by norm_num) i
    have h1 : (300 : Nat) ≤ 300 * 2 ^ i := Nat.le_mul_of_pos_right _ hp
    have h2 : (300 : Nat) ≤ d * 2 * 2 ^ i := le_trans hlt.le (Nat.le_mul_of_pos_right _ hp)
    rw [min_eq_right hlt.le, min_eq_right h1, min_eq_right h2]

/-- The retry executor on `k` failing rounds followed by a succeeding
one: it succeeds, sleeps exactly the delays `min (d * 2 ^ i) cap`, and
makes `k + 1` attempts regardless of any rounds provided after the
success. -/
theorem execute_retry_fail_then_succeed (label : String) :
    ∀ (k d : Nat), d ≤ RETRY_MAX_DELAY_DS → ∀ (extra : List Round),
      (execute_with_retry label d
          (List.replicate k failingRound ++ succeedingRound :: extra)).1 = .success ∧
      (execute_with_retry label d
          (List.replicate k failingRound ++ succeedingRound :: extra)).2.2 =
        (List.range k).map (fun i => min (d * 2 ^ i) RETRY_MAX_DELAY_DS) ∧
      (execute_with_retry label d
          (List.replicate k failingRound ++ succeedingRound :: extra)).2.1.count
        Ev.attemptEv = k + 1 := by
  intro k
  induction k with
  | zero =>
    intro d hd extra
    refine ⟨?_, ?_, ?_⟩ <;>
      simp [execute_with_retry, wait_for_storage, succeedingRound, List.count_cons]
  | succ n ih =>
    intro d hd extra
    have hd' : min (d * 2) RETRY_MAX_DELAY_DS ≤ RETRY_MAX_DELAY_DS := min_le_right _ _
    obtain ⟨ih1, ih2, ih3⟩ := ih (min (d * 2) RETRY_MAX_DELAY_DS) hd' extra
    have hstep : List.replicate (n + 1) failingRound ++ succeedingRound :: extra =
        failingRound :: (List.replicate n failingRound ++ succeedingRound :: extra) := by
      simp [List.replicate_succ]
    rw [hstep]
    have hunf : execute_with_retry label d
        (failingRound :: (List.replicate n failingRound ++ succeedingRound :: extra)) =
        ((execute_with_retry label (min (d * 2) RETRY_MAX_DELAY_DS)
            (List.replicate n failingRound ++ succeedingRound :: extra)).1,
          [Ev.acquire, Ev.attemptEv, Ev.release, Ev.backoffSleep d] ++
            (execute_with_retry label (min (d * 2) RETRY_MAX_DELAY_DS)
              (List.replicate n failingRound ++ succeedingRound :: extra)).2.1,
          d :: (execute_with_retry label (min (d * 2) RETRY_MAX_DELAY_DS)
            (List.replicate n failingRound ++ succeedingRound :: extra)).2.2) := by
      simp [execute_with_retry, failingRound, wait_for_storage]
    rw [hunf]
    refine ⟨ih1, ?_, ?_⟩
    · show d :: _ = _
      rw [ih2, List.range_succ_eq_map, List.map_cons, List.map_map]
      have hfun : (fun i => min (min (d * 2) RETRY_MAX_DELAY_DS * 2 ^ i) RETRY_MAX_DELAY_DS) =
          ((fun i => min (d * 2 ^ i) RETRY_MAX_DELAY_DS) ∘ Nat.succ) := by
        funext i
        show min (min (d * 2) RETRY_MAX_DELAY_DS * 2 ^ i) RETRY_MAX_DELAY_DS =
          min (d * 2 ^ (i + 1)) RETRY_MAX_DELAY_DS
        rw [min_double_capped]
        congr 1
        ring
      rw [hfun]
      congr 1
      show d = min (d * 2 ^ 0) RETRY_MAX_DELAY_DS
      rw [pow_zero, mul_one, min_eq_left hd]
    · show List.count Ev.attemptEv (_ ++ _) = _
      rw [List.count_append, ih3]
      simp [List.count_cons]
      omega

/-- Claim C4: starting from `RETRY_INITIAL_DELAY_DS` (0.5 s expressed in
deciseconds), the backoff delays slept after successive failed attempts
of one unit are exactly `min (5 * 2 ^ i) 300` deciseconds for the `i`-th
failure counting from 0 — i.e. 0.5 s, 1 s, 2 s, 4 s, … doubling and
capped at 30 s — and once an attempt succeeds the executor returns with
exactly `k + 1` attempts made, no matter what rounds would follow. -/
theorem c4_backoff_sequence (k : Nat) (label : String) (extra : List Round) :
    (execute_with_retry label RETRY_INITIAL_DELAY_DS
        (List.replicate k failingRound ++ succeedingRound :: extra)).1 = .success ∧
    (execute_with_retry label RETRY_INITIAL_DELAY_DS
        (List.replicate k failingRound ++ succeedingRound :: extra)).2.2 =
      (List.range k).map
        (fun i => min (RETRY_INITIAL_DELAY_DS * 2 ^ i) RETRY_MAX_DELAY_DS) ∧
    (execute_with_retry label RETRY_INITIAL_DELAY_DS
        (List.replicate k failingRound ++ succeedingRound :: extra)).2.1.count
      Ev.attemptEv = k + 1 :=
  execute_retry_fail_then_succeed label k RETRY_INITIAL_DELAY_DS (by decide) extra

/-! ## Claim C8: the concurrency gate -/

/-- The readiness wait only emits permit-free tick events, so it can be
peeled off the front of a trace when checking gate discipline. -/
theorem gateOk_wait_append (label : String) :
    ∀ (obs : List WaitObs) (evs : List Ev),
      gateOk ((wait_for_storage label obs).2 ++ evs) = gateOk evs := by
  intro obs
  induction obs with
  | nil => intro evs; simp [wait_for_storage]
  | cons o rest ih =>
    intro evs
    by_cases hsd : o.shutting_down
    · simp [wait_for_storage, hsd]
    · by_cases hr : o.storage_ready
      · simp [wait_for_storage, hsd, hr]
      · simp only [wait_for_storage, hsd, hr]
        simp only [Bool.false_eq_true, if_false, List.cons_append]
        rw [gateOk]
        exact ih evs

/-- Every trace of the retry executor observes gate discipline: each
attempt is immediately bracketed by an acquire and a release, and every
readiness tick or backoff sleep happens with no permit held. -/
theorem gateOk_execute (label : String) :
    ∀ (rounds : List Round) (d : Nat),
      gateOk (execute_with_retry label d rounds).2.1 = true := by
  intro rounds
  induction rounds with
  | nil => intro d; simp [execute_with_retry, gateOk]
  | cons r rest ih =>
    intro d
    rcases hw : (wait_for_storage label r.wait_obs).1 with _ | m | _
    · by_cases hp : r.post_drain
      · have : (execute_with_retry label d (r :: rest)).2.1 =
            (wait_for_storage label r.wait_obs).2 := by
          simp [execute_with_retry, hw, hp]
        rw [this, ← List.append_nil ((wait_for_storage label r.wait_obs).2),
          gateOk_wait_append]
        rfl
      · rcases ha : r.attempt with _ | _ | _
        · have : (execute_with_retry label d (r :: rest)).2.1 =
              (wait_for_storage label r.wait_obs).2 ++
                [Ev.acquire, Ev.attemptEv, Ev.release] := by
            simp [execute_with_retry, hw, hp, ha]
          rw [this, gateOk_wait_append]
          rfl
        · have : (execute_with_retry label d (r :: rest)).2.1 =
              (wait_for_storage label r.wait_obs).2 ++
                [Ev.acquire, Ev.attemptEv, Ev.release] := by
            simp [execute_with_retry, hw, hp, ha]
          rw [this, gateOk_wait_append]
          rfl
        · have : (execute_with_retry label d (r :: rest)).2.1 =
              (wait_for_storage label r.wait_obs).2 ++
                ([Ev.acquire, Ev.attemptEv, Ev.release, Ev.backoffSleep d] ++
                  (execute_with_retry label (min (d * 2) RETRY_MAX_DELAY_DS) rest).2.1) := by
            simp [execute_with_retry, hw, hp, ha]
          rw [this, gateOk_wait_append, List.cons_append, List.cons_append,
            List.cons_append, gateOk, List.cons_append, List.nil_append, gateOk]
          exact ih _
    · have : (execute_with_retry label d (r :: rest)).2.1 =
          (wait_for_storage label r.wait_obs).2 := by
        simp [execute_with_retry, hw]
      rw [this, ← List.append_nil ((wait_for_storage label r.wait_obs).2),
        gateOk_wait_append]
      rfl
    · have : (execute_with_retry label d (r :: rest)).2.1 =
          (wait_for_storage label r.wait_obs).2 := by
        simp [execute_with_retry, hw]
      rw [this, ← List.append_nil ((wait_for_storage label r.wait_obs).2),
        gateOk_wait_append]
      rfl

/-- In every reachable state of the gate, free permits and units
mid-attempt sum to the pool size. -/
theorem sem_invariant :
    ∀ s : SemState, SemReachable s →
      s.permits + s.inAttempt = MAX_CONCURRENT_WRITES := by
  intro s h
  induction h with
  | refl => rfl
  | tail hab hbc ih =>
    cases hbc with
    | acquire hb =>
      simp only [MAX_CONCURRENT_WRITES] at ih ⊢
      omega
    | release hb =>
      simp only [MAX_CONCURRENT_WRITES] at ih ⊢
      omega

/-- Claim C8: (i) every retry-executor trace holds a gate permit exactly
around its single store attempt — acquired immediately before, released
on every exit path, and never held across a readiness tick or a backoff
sleep; (ii) the 10-permit semaphore bounds the units simultaneously
mid-attempt by `MAX_CONCURRENT_WRITES = 10` in every reachable gate
state. -/
theorem c8_concurrency_gate :
    (∀ (label : String) (d : Nat) (rounds : List Round),
      gateOk (execute_with_retry label d rounds).2.1 = true) ∧
    (∀ s : SemState, SemReachable s → s.inAttempt ≤ MAX_CONCURRENT_WRITES) := by
  constructor
  · intro label d rounds
    exact gateOk_execute label rounds d
  · intro s h
    have := sem_invariant s h
    omega

/-- Claim C8 (witness): gate discipline on a concrete two-round trace, and
the bound at the initial gate state. -/
theorem c8_concurrency_gate_witness :
    gateOk (execute_with_retry "pg-w" 5 [⟨[⟨false, false⟩, ⟨false, true⟩], false, .failure⟩,
      ⟨[⟨false, true⟩], false, .success⟩]).2.1 = true ∧
    semInit.inAttempt ≤ MAX_CONCURRENT_WRITES :=
  ⟨c8_concurrency_gate.1 "pg-w" 5 [⟨[⟨false, false⟩, ⟨false, true⟩], false, .failure⟩,
      ⟨[⟨false, true⟩], false, .success⟩],
    c8_concurrency_gate.2 semInit Relation.ReflTransGen.refl⟩

/-! ## Claim C9: submission functions are pure no-ops when disabled -/

/-- Claim C9: when replication is disabled (sqlite mode, or no DSN
configured) or the draining flag is set, every submission function
returns with the module state untouched (pending set and partition cache
included) and effect `noop` — no task is created, nothing runs
synchronously, and no secondary-store call occurs. -/
theorem c9_disabled_noop (s : RuntimeState) (loop_running : Bool)
    (hdis : s.storage_mode = StorageMode.sqlite ∨ s.has_postgres_config = false ∨
      s.shutting_down = true) :
    replication_enabled s = false ∧
    (∀ record, replicate_session s loop_running record = (s, .noop)) ∧
    (∀ sid, replicate_session_deletion s loop_running sid = (s, .noop)) ∧
    (∀ sid da, replicate_session_mark_deleted s loop_running sid da = (s, .noop)) ∧
    (∀ sid logs, replicate_session_logs s loop_running sid logs = (s, .noop)) ∧
    (∀ sid, replicate_session_log_purge s loop_running sid = (s, .noop)) ∧
    (∀ record, replicate_credentials s loop_running record = (s, .noop)) ∧
    (∀ cid, delete_credentials s loop_running cid = (s, .noop)) ∧
    (∀ record, replicate_api_key s loop_running record = (s, .noop)) ∧
    (∀ kid, delete_api_key s loop_running kid = (s, .noop)) := by
  have hen : replication_enabled s = false := by
    rcases hdis with h | h | h <;>
      simp [replication_enabled, should_write_to_postgres, h]
  refine ⟨hen, ?_, ?_, ?_, ?_, ?_, ?_, ?_, ?_, ?_⟩
  · intro record; simp [replicate_session, hen]
  · intro sid; simp [replicate_session_deletion, hen]
  · intro sid da; simp [replicate_session_mark_deleted, hen]
  · intro sid logs; simp [replicate_session_logs, hen]
  · intro sid; simp [replicate_session_log_purge, hen]
  · intro record; simp [replicate_credentials, hen]
  · intro cid; simp [delete_credentials, hen]
  · intro record; simp [replicate_api_key, hen]
  · intro kid; simp [delete_api_key, hen]

/-- Claim C9 (witness): submitting a session deletion-marker for session 77
while draining is in progress changes nothing and schedules nothing. -/
theorem c9_disabled_noop_witness :
    replication_enabled ⟨StorageMode.dual, true, true, [], [], true⟩ = false ∧
    replicate_session_deletion ⟨StorageMode.dual, true, true, [], [], true⟩ true 77 =
      (⟨StorageMode.dual, true, true, [], [], true⟩, .noop) :=
  ⟨(c9_disabled_noop ⟨StorageMode.dual, true, true, [], [], true⟩ true
      (Or.inr (Or.inr rfl))).1,
    (c9_disabled_noop ⟨StorageMode.dual, true, true, [], [], true⟩ true
      (Or.inr (Or.inr rfl))).2.2.1 77⟩

/-! ## Claim C10: empty batches -/

/-- Claim C10: even with replication enabled, `replicate_session_logs`
returns at once on an empty batch with no task created and no state
change; `PostgresStorage.insert_logs` returns 0 on an empty sequence
without acquiring a pool connection, and returns the number of lines
given on a non-empty sequence. -/
theorem c10_empty_batch (s : RuntimeState) (loop_running : Bool) (sid : Int)
    (hen : replication_enabled s = true) (pc : Bool)
    (logs : List LogLine) (hne : logs ≠ []) :
    replicate_session_logs s loop_running sid [] = (s, .noop) ∧
    insert_logs pc [] = .ok (0, false) ∧
    insert_logs true logs = .ok (logs.length, true) := by
  refine ⟨?_, ?_, ?_⟩
  · simp [replicate_session_logs]
  · simp [insert_logs]
  · simp [insert_logs, hne]

/-- Claim C10 (witness) at an enabled dual-mode state and a one-line
batch. -/
theorem c10_empty_batch_witness :
    replicate_session_logs ⟨StorageMode.dual, true, true, [], [], false⟩ true 9 [] =
      (⟨StorageMode.dual, true, true, [], [], false⟩, .noop) ∧
    insert_logs false [] = .ok (0, false) ∧
    insert_logs true [⟨⟨2024, 3, 5, 10, 0, 0, 0, none⟩, 1⟩] = .ok (1, true) := by
  have h := c10_empty_batch ⟨StorageMode.dual, true, true, [], [], false⟩ true 9
    (by decide) false [⟨⟨2024, 3, 5, 10, 0, 0, 0, none⟩, 1⟩] (by decide)
  exact ⟨h.1, h.2.1, h.2.2⟩

end HLL
